import Mathlib

/-!
A shallow embedding of the two laboratory pipelines of `lab_7_llm/main.py`
and `lab_8_sft/main.py` (dataset import, dataframe preprocessing, batched
model inference and metric evaluation), together with theorems about the
embedded operations.

Dataframes are modelled as a list of column names plus rows carrying their
pandas index label and a list of cell values.  Python exceptions are
modelled with `Except`/`Option`; the external HuggingFace model is an
abstract per-sample prediction function.  The canonical column names
`source`, `target`, `prediction` come from the course's `ColumnNames` enum,
which is not part of the two files; they are modelled from the spec.
-/

/-- A pandas cell value: booleans, integers, strings or a missing value. -/
inductive Value where
  | vBool : Bool → Value
  | vInt : Int → Value
  | vStr : String → Value
  | vNa : Value
deriving DecidableEq, Repr

/-- A pandas dataframe: column names, and rows as (index label, cells). -/
structure DataFrame where
  cols : List String
  rows : List (Nat × List Value)
deriving DecidableEq, Repr

/-- The empty dataframe. -/
def dfEmpty : DataFrame := ⟨[], []⟩

/-- A dataframe is well formed when each row has one cell per column. -/
def DataFrame.Wf (df : DataFrame) : Prop :=
  ∀ r ∈ df.rows, r.2.length = df.cols.length

/-- Python exceptions raised by the two labs. -/
inductive PyError where
  | typeError : String → PyError
  | valueError : String → PyError
  | keyError : String → PyError
deriving DecidableEq, Repr

/-- Position of a column name in a header, first occurrence (pandas
column lookup). -/
def colIndex : List String → String → Option Nat
  | [], _ => none
  | x :: xs, c => if x = c then some 0 else (colIndex xs c).map (· + 1)

/-- Cell at position `i` of a row (rows of real dataframes always have a
cell for every column, so the default is never hit on well-formed data). -/
def cellAt (i : Nat) (cells : List Value) : Value :=
  cells.getD i Value.vNa

/-- Column access `df[c]`: the list of that column's cells, or `none` for
a pandas `KeyError`. -/
def getCol (df : DataFrame) (c : String) : Option (List Value) :=
  (colIndex df.cols c).map (fun i => df.rows.map (fun r => cellAt i r.2))

/-- Column access as an `Except`, raising `KeyError` like pandas. -/
def getColE (df : DataFrame) (c : String) : Except PyError (List Value) :=
  match getCol df c with
  | some v => .ok v
  | none => .error (.keyError c)

/-- Rename a single column name through a rename mapping (`df.rename`
leaves names that are not in the mapping unchanged). -/
def lookupRename (m : List (String × String)) (c : String) : String :=
  match m.find? (fun p => p.1 == c) with
  | some p => p.2
  | none => c

/-- Embeds `df.rename(columns=m)`: every header name is pushed through the
mapping, rows are untouched. -/
def renameCols (m : List (String × String)) (df : DataFrame) : DataFrame :=
  { df with cols := df.cols.map (lookupRename m) }

/-- Keep the first row of every group of rows with equal cell values;
`seen` accumulates the cell lists already emitted.  This is
`df.drop_duplicates()` (pandas keeps the first occurrence). -/
def dedupRowsGo (seen : List (List Value)) : List (Nat × List Value) → List (Nat × List Value)
  | [] => []
  | r :: rs =>
    if r.2 ∈ seen then dedupRowsGo seen rs
    else r :: dedupRowsGo (r.2 :: seen) rs

/-- Embeds `df.drop_duplicates(inplace=True)` on a copy. -/
def dropDuplicates (df : DataFrame) : DataFrame :=
  { df with rows := dedupRowsGo [] df.rows }

/-- Replace the cell at position `i` of a row by `f` of it. -/
def mapCellAt : Nat → (Value → Value) → List Value → List Value
  | _, _, [] => []
  | 0, f, v :: vs => f v :: vs
  | j + 1, f, v :: vs => v :: mapCellAt j f vs

/-- Embeds `df[c] = df[c].map(f)`: `none` is the `KeyError` raised when the
column is absent. -/
def mapColumn (df : DataFrame) (c : String) (f : Value → Value) : Option DataFrame :=
  (colIndex df.cols c).map (fun i =>
    { df with rows := df.rows.map (fun r => (r.1, mapCellAt i f r.2)) })

/-- Re-number the rows `k, k+1, ...` and turn the old index labels into a
leading cell (the body of `reset_index`). -/
def indexRows (k : Nat) : List (Nat × List Value) → List (Nat × List Value)
  | [] => []
  | r :: rs => (k, Value.vInt (Int.ofNat r.1) :: r.2) :: indexRows (k + 1) rs

/-- Embeds `df.reset_index(inplace=True)`: the old index becomes a column
named `index` and the frame gets a fresh `0..n-1` range index. -/
def resetIndex (df : DataFrame) : DataFrame :=
  { cols := "index" :: df.cols, rows := indexRows 0 df.rows }

/-- Embeds `df.drop(names, axis=1)`: removes the named columns and their
cells; `none` is the `KeyError` pandas raises when one is absent. -/
def dropColumns (names : List String) (df : DataFrame) : Option DataFrame :=
  if names.all (fun n => df.cols.contains n) then
    some { cols := df.cols.filter (fun c => !names.contains c),
           rows := df.rows.map (fun r =>
             (r.1, ((df.cols.zip r.2).filter (fun p => !names.contains p.1)).map Prod.snd)) }
  else none

/-- Modelled from the spec: the canonical column names of the course's
`ColumnNames` enum ("the CSV layout written by inference (two columns:
target and prediction)" plus the `source` column the samples are read
from), which lives outside the two lab files. -/
def colSource : String := "source"

/-- Modelled from the spec: canonical target column name. -/
def colTarget : String := "target"

/-- Modelled from the spec: canonical prediction column name. -/
def colPrediction : String := "prediction"

namespace Lab7

/-- The rename mapping of the lab 7 `transform`:
`{'neutral': ColumnNames.SOURCE, 'toxic': ColumnNames.TARGET}`. -/
def renameMap : List (String × String) := [("neutral", colSource), ("toxic", colTarget)]

/-- The label mapping of the lab 7 `transform`:
`lambda x: 1 if x is True else 0`. -/
def toxicToLabel (x : Value) : Value :=
  if x = Value.vBool true then Value.vInt 1 else Value.vInt 0

/-- Embeds `RawDataPreprocessor.transform` of `lab_7_llm/main.py`
(lines 72-83): copy the raw frame, rename `neutral`/`toxic` to the
canonical names, drop duplicate rows, map the target column to 0/1 labels,
and reset the index.  `none` is the `KeyError` raised by
`self._data[ColumnNames.TARGET]` when the column is absent. -/
def transform (raw : DataFrame) : Option DataFrame :=
  let renamed := renameCols renameMap raw
  let deduped := dropDuplicates renamed
  match mapColumn deduped colTarget toxicToLabel with
  | some mapped => some (resetIndex mapped)
  | none => none

end Lab7

namespace Lab8

/-- The columns dropped by the lab 8 `transform`. -/
def droppedCols : List String := ["title", "date", "url"]

/-- The rename mapping of the lab 8 `transform`:
`{'article_content': ColumnNames.SOURCE, 'summary': ColumnNames.TARGET}`. -/
def renameMap : List (String × String) :=
  [("article_content", colSource), ("summary", colTarget)]

/-- Embeds `RawDataPreprocessor.transform` of `lab_8_sft/main.py`
(lines 71-80): copy the raw frame, drop `title`/`date`/`url`, rename
`article_content`/`summary` to the canonical names, and reset the index.
No duplicate rows are dropped.  `none` is the `KeyError` of `df.drop` when
a dropped column is absent. -/
def transform (raw : DataFrame) : Option DataFrame :=
  match dropColumns droppedCols raw with
  | some dropped => some (resetIndex (renameCols renameMap dropped))
  | none => none

end Lab8

/-- The value produced by `load_dataset(...).to_pandas()`: either an actual
dataframe or something of another type (the case the type check guards). -/
inductive Loaded where
  | table : DataFrame → Loaded
  | other : String → Loaded
deriving DecidableEq, Repr

/-- Whether the loaded value is a `pd.DataFrame` (`isinstance` check). -/
def Loaded.isDataFrame : Loaded → Bool
  | .table _ => true
  | .other _ => false

/-- The message of the `TypeError` raised by `obtain`. -/
def obtainTypeErrorMsg : String := "Downloaded dataset's type is not pd.DataFrame"

/-- The state of a `RawDataImporter`: its `_raw_data` attribute. -/
structure Importer where
  rawData : Option Loaded
deriving DecidableEq, Repr

/-- Embeds `RawDataImporter.obtain` (identical in both labs): the loaded
value is stored into `_raw_data` first, then a `TypeError` is raised when
it is not a dataframe.  The second component is the raised exception. -/
def obtain (loaded : Loaded) (s : Importer) : Importer × Option PyError :=
  let s' : Importer := { s with rawData := some loaded }
  (s', if loaded.isDataFrame then none else some (.typeError obtainTypeErrorMsg))

/-- Functional form of `obtain` for composing the pipeline in `Except`:
the raw dataframe, or the raised `TypeError`. -/
def obtainE (loaded : Loaded) : Except PyError DataFrame :=
  match loaded with
  | .table d => .ok d
  | .other _ => .error (.typeError obtainTypeErrorMsg)

/-- The external HuggingFace model, abstracted as a per-sample prediction
function (sequence classification `argmax` label in lab 7, decoded
`generate` output in lab 8); the libraries return one prediction string
per input sample. -/
structure Model where
  predict : Value → String

/-- The state of an `LLMPipeline`: `_model` (possibly null), the task
dataset's underlying dataframe, and the `DataLoader` batch size. -/
structure Pipeline where
  model : Option Model
  dataset : DataFrame
  batchSize : Nat

/-- The message of the `ValueError` raised by `_infer_batch`. -/
def modelNotDefinedMsg : String := "Model is not defined"

/-- Embeds `LLMPipeline._infer_batch` (both labs): raises `ValueError`
when the model is null, otherwise returns one prediction per sample of
the batch. -/
def inferBatch (p : Pipeline) (batch : List Value) : Except PyError (List String) :=
  match p.model with
  | none => .error (.valueError modelNotDefinedMsg)
  | some m => .ok (batch.map m.predict)

/-- Embeds `LLMPipeline.infer_sample` (both labs): `None` when the model
is null, otherwise `_infer_batch([sample])[0]`. -/
def inferSample (p : Pipeline) (sample : Value) : Except PyError (Option String) :=
  match p.model with
  | none => .ok none
  | some _ =>
    match inferBatch p [sample] with
    | .ok preds =>
      match preds.head? with
      | some pr => .ok (some pr)
      | none => .error (.valueError "index out of range")
    | .error e => .error e

/-- Chunking helper of `chunkList`: `cur` is the current batch reversed,
`k` the number of samples the current batch still accepts. -/
def chunkGo (n : Nat) : List α → List α → Nat → List (List α)
  | [], cur, _ => [cur.reverse]
  | x :: xs, cur, 0 => cur.reverse :: chunkGo n xs [x] (n - 1)
  | x :: xs, cur, k + 1 => chunkGo n xs (x :: cur) k

/-- The batches a `DataLoader(dataset, n)` yields: consecutive chunks of
size `n` (the last possibly shorter), in dataset order. -/
def chunkList (n : Nat) : List α → List (List α)
  | [] => []
  | x :: xs => chunkGo n xs [x] (n - 1)

/-- Rows of the prediction frame: one row `[target, prediction]` per
position, with a fresh range index starting at `k`. -/
def mkPredRows (k : Nat) : List Value → List String → List (Nat × List Value)
  | t :: ts, pr :: ps => (k, [t, Value.vStr pr]) :: mkPredRows (k + 1) ts ps
  | _, _ => []

/-- Embeds `pd.DataFrame({TARGET: targets, PREDICTION: preds})`: a fresh
two-column frame pairing targets and predictions positionally; pandas
raises `ValueError` when the lengths differ. -/
def mkPredFrame (targets : List Value) (preds : List String) : Except PyError DataFrame :=
  if targets.length = preds.length then
    .ok { cols := [colTarget, colPrediction], rows := mkPredRows 0 targets preds }
  else .error (.valueError "All arrays must be of the same length")

/-- The list comprehension `[self._infer_batch(batch) for batch in dataloader]`:
batches are inferred left to right, the first exception propagating. -/
def inferAll (p : Pipeline) : List (List Value) → Except PyError (List (List String))
  | [] => .ok []
  | b :: bs =>
    match inferBatch p b with
    | .error e => .error e
    | .ok pr =>
      match inferAll p bs with
      | .error e => .error e
      | .ok rest => .ok (pr :: rest)

namespace Lab7

/-- Embeds `LLMPipeline.infer_dataset` of `lab_7_llm/main.py`
(lines 205-216): iterate the `DataLoader` batches over the `source`
column, run `_infer_batch` on each batch in order, concatenate the
per-batch prediction lists with `sum(..., [])`, and build the
target/prediction frame.  Evaluation order follows the Python: the
samples are fetched first, then inference runs, and the `target` column
is only read when the result frame is built. -/
def inferDataset (p : Pipeline) : Except PyError DataFrame :=
  match getCol p.dataset colSource with
  | none => .error (.keyError colSource)
  | some texts =>
    match inferAll p (chunkList p.batchSize texts) with
    | .error e => .error e
    | .ok batchPreds =>
      match getCol p.dataset colTarget with
      | none => .error (.keyError colTarget)
      | some targets => mkPredFrame targets batchPreds.flatten

end Lab7

/-- The accumulation loop of the lab 8 `infer_dataset`: `preds.extend(pred)`
over the batches. -/
def inferLoop (p : Pipeline) (acc : List String) :
    List (List Value) → Except PyError (List String)
  | [] => .ok acc
  | b :: bs =>
    match inferBatch p b with
    | .error e => .error e
    | .ok pr => inferLoop p (acc ++ pr) bs

namespace Lab8

/-- Embeds `LLMPipeline.infer_dataset` of `lab_8_sft/main.py`
(lines 253-267): same as the lab 7 version but the per-batch prediction
lists are accumulated with a `for` loop and `extend`. -/
def inferDataset (p : Pipeline) : Except PyError DataFrame :=
  match getCol p.dataset colSource with
  | none => .error (.keyError colSource)
  | some texts =>
    match inferLoop p [] (chunkList p.batchSize texts) with
    | .error e => .error e
    | .ok preds =>
      match getCol p.dataset colTarget with
      | none => .error (.keyError colTarget)
      | some targets => mkPredFrame targets preds

end Lab8

/-- An evaluation metric, abstracted: `compute` receives the values passed
as `predictions` and as `references` (in that order) and returns the
result dictionary; scores are abstracted as integers. -/
structure Metric where
  name : String
  compute : List Value → List Value → List (String × Int)

/-- Python `dict.update`: values of existing keys are overwritten in
place, new keys are appended in order. -/
def dictUpdate (acc upd : List (String × Int)) : List (String × Int) :=
  acc.map (fun p =>
    match upd.find? (fun q => q.1 == p.1) with
    | some q => q
    | none => p)
  ++ upd.filter (fun q => !(acc.map Prod.fst).contains q.1)

namespace Lab7

/-- Embeds `TaskEvaluator.run` of `lab_7_llm/main.py` (lines 258-273).
For each metric the columns are read from the predictions CSV and the
metric is computed; note that the source passes the `target` column as
the `predictions` argument and the `prediction` column as `references`
(`compute(predictions=target2pred[TARGET], references=target2pred[PREDICTION])`),
then merges the result dictionary with `results.update(result)`. -/
def run (table : DataFrame) (metrics : List Metric) :
    Except PyError (List (String × Int)) :=
  metrics.foldlM (fun results m => do
    let tgt ← getColE table colTarget
    let prd ← getColE table colPrediction
    pure (dictUpdate results (m.compute tgt prd))) []

end Lab7

/-- The metric name for which the lab 8 evaluator extracts the `rougeL`
entry of the result dictionary. -/
def rougeName : String := "rouge"

namespace Lab8

/-- Embeds `TaskEvaluator.run` of `lab_8_sft/main.py` (lines 308-327).
For each metric the `prediction` column is passed as `predictions` and
the `target` column as `references`; the score stored under the metric's
name is `result['rougeL']` for rouge and `result[metric]` otherwise
(a missing key is a `KeyError`). -/
def run (table : DataFrame) (metrics : List Metric) :
    Except PyError (List (String × Int)) :=
  metrics.foldlM (fun results m => do
    let prd ← getColE table colPrediction
    let tgt ← getColE table colTarget
    let r := m.compute prd tgt
    let key := if m.name = rougeName then "rougeL" else m.name
    match r.find? (fun q => q.1 == key) with
    | some q => pure (dictUpdate results [(m.name, q.2)])
    | none => .error (.keyError key)) []

end Lab8

/-- The state of a `RawDataPreprocessor`: the `_raw_data` attribute and the
`_data` attribute (unset before `transform` runs). -/
structure Preprocessor where
  rawData : DataFrame
  data : Option DataFrame
deriving DecidableEq, Repr

/-- The dictionary built by `analyze` (both labs): sample and column
counts, duplicate and empty-row counts, and min/max sample length. -/
structure Analysis where
  numSamples : Nat
  numColumns : Nat
  numDuplicates : Nat
  numEmptyRows : Nat
  sampleMinLen : Option Nat
  sampleMaxLen : Option Nat
deriving DecidableEq, Repr

/-- Lengths of a column's values, `series.map(len, na_action='ignore')`:
missing values are skipped, `len` of a non-string raises `TypeError`. -/
def lenSeries : List Value → Except PyError (List Nat)
  | [] => .ok []
  | v :: rest => do
    let tail ← lenSeries rest
    match v with
    | .vNa => .ok tail
    | .vStr s => .ok (s.length :: tail)
    | _ => .error (.typeError "object of this type has no len")

/-- Whether a row would be removed by `replace('', nan).dropna()`: it
holds a missing value or an empty string. -/
def rowEmptyish (cells : List Value) : Bool :=
  cells.any (fun v => v == Value.vNa || v == Value.vStr "")

/-- The body of `analyze` (both labs), parameterized by the name of the
text column whose lengths are surveyed (`neutral` in lab 7,
`article_content` in lab 8): the statistics are computed from
non-mutating views of the raw frame.  The returned state is unchanged. -/
def analyzeBody (textCol : String) (s : Preprocessor) :
    Preprocessor × Except PyError Analysis :=
  (s, do
    let textVals ← getColE s.rawData textCol
    let lens ← lenSeries textVals
    pure { numSamples := s.rawData.rows.length
         , numColumns := s.rawData.cols.length
         , numDuplicates :=
             s.rawData.rows.length - (s.rawData.rows.map Prod.snd).dedup.length
         , numEmptyRows := (s.rawData.rows.filter (fun r => rowEmptyish r.2)).length
         , sampleMinLen := lens.min?
         , sampleMaxLen := lens.max? })

namespace Lab7

/-- Embeds `RawDataPreprocessor.analyze` of `lab_7_llm/main.py`
(lines 53-70): statistics over the raw frame, lengths from the `neutral`
column. -/
def analyze (s : Preprocessor) : Preprocessor × Except PyError Analysis :=
  analyzeBody "neutral" s

/-- Embeds the lab 7 `transform` as a state transition on the
preprocessor: `self._data` is assigned the transformed copy of
`self._raw_data`; when the target column is absent mid-transform the
partially built copy is what `_data` holds and a `KeyError` is raised. -/
def transformState (s : Preprocessor) : Preprocessor × Option PyError :=
  let deduped := dropDuplicates (renameCols renameMap s.rawData)
  match mapColumn deduped colTarget toxicToLabel with
  | some mapped => ({ s with data := some (resetIndex mapped) }, none)
  | none => ({ s with data := some deduped }, some (.keyError colTarget))

end Lab7

namespace Lab8

/-- Embeds `RawDataPreprocessor.analyze` of `lab_8_sft/main.py`
(lines 52-69): statistics over the raw frame, lengths from the
`article_content` column. -/
def analyze (s : Preprocessor) : Preprocessor × Except PyError Analysis :=
  analyzeBody "article_content" s

/-- Embeds the lab 8 `transform` as a state transition on the
preprocessor: `self._data` is assigned the transformed copy of
`self._raw_data`; when a dropped column is absent a `KeyError` is raised
before `_data` is reassigned beyond the fresh copy. -/
def transformState (s : Preprocessor) : Preprocessor × Option PyError :=
  match dropColumns droppedCols s.rawData with
  | some dropped =>
    ({ s with data := some (resetIndex (renameCols renameMap dropped)) }, none)
  | none => ({ s with data := some s.rawData }, some (.keyError "title date url"))

end Lab8

namespace Lab7

/-- The lab 7 `transform` in `Except` form, its `KeyError` made explicit
for composing the script. -/
def transformE (raw : DataFrame) : Except PyError DataFrame :=
  match transform raw with
  | some d => .ok d
  | none => .error (.keyError colTarget)

/-- The lab 7 four-stage script: import, preprocess, infer, evaluate,
each stage's exception propagating directly to the caller (the inference
frame is handed to the evaluator as the predictions table). -/
def runPipeline (loaded : Loaded) (model : Option Model) (bs : Nat)
    (metrics : List Metric) : Except PyError (List (String × Int)) :=
  match obtainE loaded with
  | .error e => .error e
  | .ok raw =>
    match transformE raw with
    | .error e => .error e
    | .ok data =>
      match inferDataset ⟨model, data, bs⟩ with
      | .error e => .error e
      | .ok predsDf => run predsDf metrics

end Lab7

namespace Lab8

/-- The lab 8 `transform` in `Except` form, its `KeyError` made explicit
for composing the script. -/
def transformE (raw : DataFrame) : Except PyError DataFrame :=
  match transform raw with
  | some d => .ok d
  | none => .error (.keyError "title date url")

/-- The lab 8 four-stage script: import, preprocess, infer, evaluate,
each stage's exception propagating directly to the caller. -/
def runPipeline (loaded : Loaded) (model : Option Model) (bs : Nat)
    (metrics : List Metric) : Except PyError (List (String × Int)) :=
  match obtainE loaded with
  | .error e => .error e
  | .ok raw =>
    match transformE raw with
    | .error e => .error e
    | .ok data =>
      match inferDataset ⟨model, data, bs⟩ with
      | .error e => .error e
      | .ok predsDf => run predsDf metrics

end Lab8

section Lemmas

/-- A found column index is within the header. -/
theorem colIndex_lt_length :
    ∀ {cols : List String} {c : String} {i : Nat},
      colIndex cols c = some i → i < cols.length := by
  intro cols
  induction cols with
  | nil => intro c i h; simp [colIndex] at h
  | cons x xs ih =>
    intro c i h
    simp only [colIndex] at h
    split at h
    · cases h; simp
    · cases hx : colIndex xs c with
      | none => rw [hx] at h; simp at h
      | some j =>
        rw [hx] at h
        simp only [Option.map_some'] at h
        cases h
        have := ih hx
        simp
        omega

/-- Re-indexing preserves the number of rows. -/
theorem indexRows_length (l : List (Nat × List Value)) :
    ∀ k, (indexRows k l).length = l.length := by
  induction l with
  | nil => intro k; rfl
  | cons r rs ih => intro k; simp [indexRows, ih]

/-- Reading column `j+1` of re-indexed rows reads column `j` of the
original rows (the prepended cell is the old index). -/
theorem indexRows_cellAt_succ (j : Nat) (l : List (Nat × List Value)) :
    ∀ k, (indexRows k l).map (fun r => cellAt (j + 1) r.2)
      = l.map (fun r => cellAt j r.2) := by
  induction l with
  | nil => intro k; rfl
  | cons r rs ih =>
    intro k
    simp only [indexRows, List.map_cons, ih]
    rfl

/-- The fresh index labels produced by re-indexing are `k, k+1, ...`. -/
theorem indexRows_map_fst (l : List (Nat × List Value)) :
    ∀ k, (indexRows k l).map Prod.fst = List.range' k l.length := by
  induction l with
  | nil => intro k; rfl
  | cons r rs ih => intro k; simp [indexRows, List.range'_succ, ih]

/-- Re-indexed rows are pairwise distinct (their labels are). -/
theorem indexRows_nodup (l : List (Nat × List Value)) (k : Nat) :
    (indexRows k l).Nodup := by
  have h : ((indexRows k l).map Prod.fst).Nodup := by
    rw [indexRows_map_fst]
    exact List.nodup_range' _ _
  exact h.of_map

/-- Membership in the deduplicated cell lists: exactly the cell lists of
the input that are not in the `seen` accumulator. -/
theorem dedupRowsGo_mem_snd (x : List Value) :
    ∀ (rows : List (Nat × List Value)) (seen : List (List Value)),
      x ∈ (dedupRowsGo seen rows).map Prod.snd ↔ x ∈ rows.map Prod.snd ∧ x ∉ seen := by
  intro rows
  induction rows with
  | nil => intro seen; simp [dedupRowsGo]
  | cons r rs ih =>
    intro seen
    by_cases hmem : r.2 ∈ seen
    · rw [show dedupRowsGo seen (r :: rs) = dedupRowsGo seen rs by
        simp [dedupRowsGo, hmem]]
      rw [ih seen]
      simp only [List.map_cons, List.mem_cons]
      constructor
      · exact fun h => ⟨Or.inr h.1, h.2⟩
      · rintro ⟨h1 | h1, h2⟩
        · exact absurd (h1 ▸ hmem) h2
        · exact ⟨h1, h2⟩
    · rw [show dedupRowsGo seen (r :: rs) = r :: dedupRowsGo (r.2 :: seen) rs by
        simp [dedupRowsGo, hmem]]
      simp only [List.map_cons, List.mem_cons]
      rw [ih (r.2 :: seen)]
      simp only [List.mem_cons]
      constructor
      · rintro (h | ⟨h1, h2⟩)
        · exact ⟨Or.inl h, h ▸ hmem⟩
        · exact ⟨Or.inr h1, fun hx => h2 (Or.inr hx)⟩
      · rintro ⟨h1 | h1, h2⟩
        · exact Or.inl h1
        · by_cases hx : x = r.2
          · exact Or.inl hx
          · exact Or.inr ⟨h1, fun hc => hc.elim hx h2⟩

/-- The deduplicated cell lists are pairwise distinct. -/
theorem dedupRowsGo_nodup_snd :
    ∀ (rows : List (Nat × List Value)) (seen : List (List Value)),
      ((dedupRowsGo seen rows).map Prod.snd).Nodup := by
  intro rows
  induction rows with
  | nil => intro seen; simp [dedupRowsGo]
  | cons r rs ih =>
    intro seen
    by_cases hmem : r.2 ∈ seen
    · rw [show dedupRowsGo seen (r :: rs) = dedupRowsGo seen rs by
        simp [dedupRowsGo, hmem]]
      exact ih seen
    · rw [show dedupRowsGo seen (r :: rs) = r :: dedupRowsGo (r.2 :: seen) rs by
        simp [dedupRowsGo, hmem]]
      simp only [List.map_cons, List.nodup_cons]
      refine ⟨fun hc => ?_, ih (r.2 :: seen)⟩
      have := (dedupRowsGo_mem_snd r.2 rs (r.2 :: seen)).mp hc
      exact this.2 (List.mem_cons_self _ _)

/-- Every surviving row is a row of the input. -/
theorem dedupRowsGo_subset :
    ∀ (rows : List (Nat × List Value)) (seen : List (List Value)) (r : Nat × List Value),
      r ∈ dedupRowsGo seen rows → r ∈ rows := by
  intro rows
  induction rows with
  | nil => intro seen r h; simp [dedupRowsGo] at h
  | cons p ps ih =>
    intro seen r h
    by_cases hmem : p.2 ∈ seen
    · rw [show dedupRowsGo seen (p :: ps) = dedupRowsGo seen ps by
        simp [dedupRowsGo, hmem]] at h
      exact List.mem_cons_of_mem _ (ih seen r h)
    · rw [show dedupRowsGo seen (p :: ps) = p :: dedupRowsGo (p.2 :: seen) ps by
        simp [dedupRowsGo, hmem]] at h
      rcases List.mem_cons.mp h with h | h
      · exact h ▸ List.mem_cons_self _ _
      · exact List.mem_cons_of_mem _ (ih _ r h)

/-- Dropping duplicates keeps one row per distinct cell list. -/
theorem dedupRowsGo_length (rows : List (Nat × List Value)) :
    (dedupRowsGo [] rows).length = (rows.map Prod.snd).dedup.length := by
  have hfin : ((dedupRowsGo [] rows).map Prod.snd).toFinset
      = (rows.map Prod.snd).toFinset := by
    ext x
    simp only [List.mem_toFinset]
    rw [dedupRowsGo_mem_snd]
    simp
  calc (dedupRowsGo [] rows).length
      = ((dedupRowsGo [] rows).map Prod.snd).length := (List.length_map _ _).symm
    _ = ((dedupRowsGo [] rows).map Prod.snd).toFinset.card :=
        (List.toFinset_card_of_nodup (dedupRowsGo_nodup_snd rows [])).symm
    _ = (rows.map Prod.snd).toFinset.card := by rw [hfin]
    _ = (rows.map Prod.snd).dedup.length := List.card_toFinset _

/-- Editing one cell keeps the row length. -/
theorem mapCellAt_length (f : Value → Value) :
    ∀ (cells : List Value) (i : Nat), (mapCellAt i f cells).length = cells.length := by
  intro cells
  induction cells with
  | nil => intro i; simp [mapCellAt]
  | cons v vs ih =>
    intro i
    cases i with
    | zero => rfl
    | succ j => simp [mapCellAt, ih]

/-- Reading the edited cell gives `f` of the original cell. -/
theorem cellAt_mapCellAt_self (f : Value → Value) :
    ∀ (cells : List Value) (i : Nat), i < cells.length →
      cellAt i (mapCellAt i f cells) = f (cellAt i cells) := by
  intro cells
  induction cells with
  | nil => intro i h; simp at h
  | cons v vs ih =>
    intro i h
    cases i with
    | zero => rfl
    | succ j =>
      have : j < vs.length := by simpa using h
      simpa [mapCellAt, cellAt] using ih j this

/-- Reading any column other than `index` after `reset_index` reads the
same column of the original frame. -/
theorem getCol_resetIndex (df : DataFrame) (c : String) (hc : c ≠ "index") :
    getCol (resetIndex df) c = getCol df c := by
  simp only [getCol, resetIndex, colIndex]
  rw [if_neg (fun h => hc h.symm)]
  cases hx : colIndex df.cols c with
  | none => simp [hx]
  | some i => simp [hx, indexRows_cellAt_succ]

/-- Flattening the chunking helper restores the remaining samples after
the already collected current batch. -/
theorem chunkGo_flatten (n : Nat) :
    ∀ (l cur : List α) (k : Nat), (chunkGo n l cur k).flatten = cur.reverse ++ l := by
  intro l
  induction l with
  | nil => intro cur k; simp [chunkGo]
  | cons x xs ih =>
    intro cur k
    cases k with
    | zero => simp [chunkGo, ih]
    | succ j => simp [chunkGo, ih]

/-- The `DataLoader` batches concatenate back to the dataset samples. -/
theorem chunkList_flatten (n : Nat) (l : List α) :
    (chunkList n l).flatten = l := by
  cases l with
  | nil => rfl
  | cons x xs => simp [chunkList, chunkGo_flatten]

/-- With a non-null model, inferring all batches succeeds and yields one
prediction list per batch, each mapping the model over the batch. -/
theorem inferAll_ok (p : Pipeline) (m : Model) (hm : p.model = some m) :
    ∀ (bs : List (List Value)),
      inferAll p bs = .ok (bs.map (fun b => b.map m.predict)) := by
  intro bs
  induction bs with
  | nil => rfl
  | cons b rest ih => simp [inferAll, inferBatch, hm, ih]

/-- With a non-null model, the lab 8 accumulation loop collects the same
predictions, batch by batch, appended to the accumulator. -/
theorem inferLoop_ok (p : Pipeline) (m : Model) (hm : p.model = some m) :
    ∀ (bs : List (List Value)) (acc : List String),
      inferLoop p acc bs = .ok (acc ++ (bs.map (fun b => b.map m.predict)).flatten) := by
  intro bs
  induction bs with
  | nil => intro acc; simp [inferLoop]
  | cons b rest ih =>
    intro acc
    simp [inferLoop, inferBatch, hm, ih]

/-- The prediction frame has one row per target/prediction pair. -/
theorem mkPredRows_length :
    ∀ (ts : List Value) (ps : List String) (k : Nat), ts.length = ps.length →
      (mkPredRows k ts ps).length = ts.length := by
  intro ts
  induction ts with
  | nil => intro ps k h; cases ps <;> simp [mkPredRows] at h ⊢
  | cons t ts ih =>
    intro ps k h
    cases ps with
    | nil => simp at h
    | cons pr ps =>
      simp only [List.length_cons, Nat.succ_inj] at h
      simp [mkPredRows, ih ps (k + 1) h]

/-- The first column of the prediction rows is the target list. -/
theorem mkPredRows_cellAt_zero :
    ∀ (ts : List Value) (ps : List String) (k : Nat), ts.length = ps.length →
      (mkPredRows k ts ps).map (fun r => cellAt 0 r.2) = ts := by
  intro ts
  induction ts with
  | nil => intro ps k h; cases ps <;> simp [mkPredRows] at h ⊢
  | cons t ts ih =>
    intro ps k h
    cases ps with
    | nil => simp at h
    | cons pr ps =>
      simp only [List.length_cons, Nat.succ_inj] at h
      simp only [mkPredRows, List.map_cons, ih ps (k + 1) h]
      rfl

/-- The second column of the prediction rows is the prediction list. -/
theorem mkPredRows_cellAt_one :
    ∀ (ts : List Value) (ps : List String) (k : Nat), ts.length = ps.length →
      (mkPredRows k ts ps).map (fun r => cellAt 1 r.2) = ps.map Value.vStr := by
  intro ts
  induction ts with
  | nil => intro ps k h; cases ps <;> simp [mkPredRows] at h ⊢
  | cons t ts ih =>
    intro ps k h
    cases ps with
    | nil => simp at h
    | cons pr ps =>
      simp only [List.length_cons, Nat.succ_inj] at h
      simp only [mkPredRows, List.map_cons, ih ps (k + 1) h]
      rfl

/-- A column read always yields one value per row. -/
theorem getCol_length (df : DataFrame) (c : String) (vals : List Value)
    (h : getCol df c = some vals) : vals.length = df.rows.length := by
  simp only [getCol] at h
  cases hx : colIndex df.cols c with
  | none => rw [hx] at h; simp at h
  | some i =>
    rw [hx] at h
    simp only [Option.map_some'] at h
    cases h
    simp

/-- Editing a column does not change the header. -/
theorem mapColumn_cols {df df' : DataFrame} {c : String} {f : Value → Value}
    (h : mapColumn df c f = some df') : df'.cols = df.cols := by
  simp only [mapColumn] at h
  cases hx : colIndex df.cols c with
  | none => rw [hx] at h; simp at h
  | some i => rw [hx] at h; simp only [Option.map_some'] at h; cases h; rfl

/-- Editing a column does not change the number of rows. -/
theorem mapColumn_rows_length {df df' : DataFrame} {c : String} {f : Value → Value}
    (h : mapColumn df c f = some df') : df'.rows.length = df.rows.length := by
  simp only [mapColumn] at h
  cases hx : colIndex df.cols c with
  | none => rw [hx] at h; simp at h
  | some i => rw [hx] at h; simp only [Option.map_some'] at h; cases h; simp

/-- A successful column drop filters the header. -/
theorem dropColumns_cols {names : List String} {df df' : DataFrame}
    (h : dropColumns names df = some df') :
    df'.cols = df.cols.filter (fun c => !names.contains c) := by
  simp only [dropColumns] at h
  split at h
  · cases h; rfl
  · simp at h

/-- A successful column drop keeps the number of rows. -/
theorem dropColumns_rows_length {names : List String} {df df' : DataFrame}
    (h : dropColumns names df = some df') : df'.rows.length = df.rows.length := by
  simp only [dropColumns] at h
  split at h
  · cases h; simp
  · simp at h

end Lemmas

section Fixtures

/-- A concrete raw lab 7 table: two distinct rows over `neutral`/`toxic`. -/
def cRaw7 : DataFrame :=
  ⟨["neutral", "toxic"],
   [(0, [Value.vStr "ok text", Value.vBool false]),
    (1, [Value.vStr "bad text", Value.vBool true])]⟩

/-- The transformed lab 7 table of `cRaw7`. -/
def cOut7 : DataFrame := (Lab7.transform cRaw7).getD dfEmpty

/-- A concrete raw lab 8 table with two identical rows. -/
def cDup8 : DataFrame :=
  ⟨["title", "date", "url", "article_content", "summary"],
   [(0, [Value.vStr "t", Value.vStr "d", Value.vStr "u", Value.vStr "a", Value.vStr "s"]),
    (1, [Value.vStr "t", Value.vStr "d", Value.vStr "u", Value.vStr "a", Value.vStr "s"])]⟩

/-- The transformed lab 8 table of `cDup8`. -/
def cDupOut8 : DataFrame := (Lab8.transform cDup8).getD dfEmpty

/-- A concrete model predicting the constant string "1". -/
def cModel : Model := ⟨fun _ => "1"⟩

/-- A concrete preprocessed three-row dataset with source and target. -/
def cData : DataFrame :=
  ⟨[colSource, colTarget],
   [(0, [Value.vStr "a", Value.vInt 0]),
    (1, [Value.vStr "b", Value.vInt 1]),
    (2, [Value.vStr "c", Value.vInt 0])]⟩

/-- A concrete pipeline over `cData` with batch size 2. -/
def cPipe : Pipeline := ⟨some cModel, cData, 2⟩

/-- The inference frame the concrete pipeline produces. -/
def cPredsDf : DataFrame := (Lab7.inferDataset cPipe).toOption.getD dfEmpty

/-- A concrete pipeline with a null model. -/
def cNullPipe : Pipeline := ⟨none, cData, 2⟩

/-- A probe metric: its score is the first value it receives as the
`predictions` argument (or -1), so it records which column was passed
there. -/
def probeMetric : Metric :=
  ⟨"probe", fun preds _refs =>
    [("probe", match preds.head? with
               | some (Value.vInt n) => n
               | _ => -1)]⟩

/-- A one-row predictions table: target value 0, prediction value 1. -/
def cEvalTable : DataFrame :=
  ⟨[colTarget, colPrediction], [(0, [Value.vInt 0, Value.vInt 1])]⟩

end Fixtures

/-- C4: with a null model, `infer_sample` returns `None` without
attempting inference (no call to `_infer_batch` is made: the embedded
guard returns before inference), and `_infer_batch` raises `ValueError`
(`'Model is not defined'`) whenever it is invoked. -/
theorem c4_null_model_guard (p : Pipeline) (h : p.model = none) :
    (∀ s, inferSample p s = .ok none) ∧
    (∀ b, inferBatch p b = .error (.valueError modelNotDefinedMsg)) := by
  constructor
  · intro s; simp [inferSample, h]
  · intro b; simp [inferBatch, h]

/-- Witness for C4 at a concrete null-model pipeline and sample. -/
theorem c4_null_model_guard_witness :
    inferSample cNullPipe (Value.vStr "hi") = .ok none ∧
    inferBatch cNullPipe [Value.vStr "hi"] = .error (.valueError modelNotDefinedMsg) :=
  ⟨(c4_null_model_guard cNullPipe rfl).1 _, (c4_null_model_guard cNullPipe rfl).2 _⟩

/-- C5: `obtain` raises `TypeError` exactly when the loaded value is not
a dataframe; the loaded value is stored into `_raw_data` in every case,
and when it is a dataframe nothing is raised. -/
theorem c5_obtain_type_check (loaded : Loaded) (s : Importer) :
    ((obtain loaded s).2 = some (.typeError obtainTypeErrorMsg) ↔
      loaded.isDataFrame = false) ∧
    (obtain loaded s).1.rawData = some loaded ∧
    (loaded.isDataFrame = true →
      obtain loaded s = ({ rawData := some loaded }, none)) := by
  cases loaded <;> simp [obtain, Loaded.isDataFrame]

/-- Witness for C5 at a concrete dataframe and a concrete non-dataframe. -/
theorem c5_obtain_type_check_witness :
    obtain (.table dfEmpty) ⟨none⟩ = ({ rawData := some (.table dfEmpty) }, none) ∧
    (obtain (.other "datasets.Dataset") ⟨none⟩).2 =
      some (.typeError obtainTypeErrorMsg) :=
  ⟨(c5_obtain_type_check (.table dfEmpty) ⟨none⟩).2.2 rfl,
   (c5_obtain_type_check (.other "datasets.Dataset") ⟨none⟩).1.mpr rfl⟩

/-- C8: `analyze` and `transform` leave `_raw_data` unchanged in both
labs: `transform` writes only the `_data` copy and `analyze` computes its
statistics from non-mutating views, returning the state unchanged. -/
theorem c8_raw_data_unchanged (s : Preprocessor) :
    (Lab7.transformState s).1.rawData = s.rawData ∧
    (Lab7.analyze s).1 = s ∧
    (Lab8.transformState s).1.rawData = s.rawData ∧
    (Lab8.analyze s).1 = s := by
  refine ⟨?_, rfl, ?_, rfl⟩
  · rcases hm : mapColumn (dropDuplicates (renameCols Lab7.renameMap s.rawData))
        colTarget Lab7.toxicToLabel with _ | mapped <;>
      simp [Lab7.transformState, hm]
  · rcases hd : dropColumns Lab8.droppedCols s.rawData with _ | dropped <;>
      simp [Lab8.transformState, hd]

/-- C1: on a one-row predictions table (target 0, prediction 1) with a
probe metric that reports the first value of its `predictions` argument,
the lab 7 evaluator yields 0 — it passed the `target` column as
`predictions` and the `prediction` column as `references` — while the
claimed wiring (which the probe confirms the lab 8 evaluator implements)
would yield 1. -/
theorem c1_lab7_evaluator_swaps_arguments :
    Lab7.run cEvalTable [probeMetric] = .ok [("probe", 0)] ∧
    getCol cEvalTable colPrediction = some [Value.vInt 1] ∧
    getCol cEvalTable colTarget = some [Value.vInt 0] ∧
    probeMetric.compute [Value.vInt 1] [Value.vInt 0] = [("probe", 1)] ∧
    Lab8.run cEvalTable [probeMetric] = .ok [("probe", 1)] :=
  ⟨rfl, rfl, rfl, rfl, rfl⟩

/-- C7: in both four-stage scripts, the first stage that fails determines
the result: the import, preprocess and inference stages each propagate
their exception to the caller unchanged, and on an error-free prefix the
script's result is exactly the evaluation stage's result (no
catch-and-continue anywhere). -/
theorem c7_errors_propagate (loaded : Loaded) (model : Option Model) (bs : Nat)
    (metrics : List Metric) :
    (∀ e, obtainE loaded = .error e →
      Lab7.runPipeline loaded model bs metrics = .error e ∧
      Lab8.runPipeline loaded model bs metrics = .error e) ∧
    (∀ raw e, obtainE loaded = .ok raw → Lab7.transformE raw = .error e →
      Lab7.runPipeline loaded model bs metrics = .error e) ∧
    (∀ raw e, obtainE loaded = .ok raw → Lab8.transformE raw = .error e →
      Lab8.runPipeline loaded model bs metrics = .error e) ∧
    (∀ raw d e, obtainE loaded = .ok raw → Lab7.transformE raw = .ok d →
      Lab7.inferDataset ⟨model, d, bs⟩ = .error e →
      Lab7.runPipeline loaded model bs metrics = .error e) ∧
    (∀ raw d e, obtainE loaded = .ok raw → Lab8.transformE raw = .ok d →
      Lab8.inferDataset ⟨model, d, bs⟩ = .error e →
      Lab8.runPipeline loaded model bs metrics = .error e) ∧
    (∀ raw d pf, obtainE loaded = .ok raw → Lab7.transformE raw = .ok d →
      Lab7.inferDataset ⟨model, d, bs⟩ = .ok pf →
      Lab7.runPipeline loaded model bs metrics = Lab7.run pf metrics) ∧
    (∀ raw d pf, obtainE loaded = .ok raw → Lab8.transformE raw = .ok d →
      Lab8.inferDataset ⟨model, d, bs⟩ = .ok pf →
      Lab8.runPipeline loaded model bs metrics = Lab8.run pf metrics) := by
  refine ⟨fun e h1 => ⟨?_, ?_⟩, fun raw e h1 h2 => ?_, fun raw e h1 h2 => ?_,
    fun raw d e h1 h2 h3 => ?_, fun raw d e h1 h2 h3 => ?_,
    fun raw d pf h1 h2 h3 => ?_, fun raw d pf h1 h2 h3 => ?_⟩
  · simp [Lab7.runPipeline, h1]
  · simp [Lab8.runPipeline, h1]
  · simp [Lab7.runPipeline, h1, h2]
  · simp [Lab8.runPipeline, h1, h2]
  · simp [Lab7.runPipeline, h1, h2, h3]
  · simp [Lab8.runPipeline, h1, h2, h3]
  · simp [Lab7.runPipeline, h1, h2, h3]
  · simp [Lab8.runPipeline, h1, h2, h3]

/-- Witness for C7: a failed import propagates its `TypeError` through
the concrete lab 7 script. -/
theorem c7_errors_propagate_witness :
    Lab7.runPipeline (.other "datasets.Dataset") (some cModel) 2 [probeMetric] =
      .error (.typeError obtainTypeErrorMsg) :=
  ((c7_errors_propagate (.other "datasets.Dataset") (some cModel) 2 [probeMetric]).1
    (.typeError obtainTypeErrorMsg) rfl).1

/-- C3: when the raw table contains the dataset-specific columns
(`neutral`/`toxic` in lab 7, `article_content`/`summary` in lab 8), a
successful `transform` produces a table containing the canonical
`source` and `target` columns — neither expected column is missing. -/
theorem c3_columns_renamed_consistently :
    (∀ raw out, "neutral" ∈ raw.cols → "toxic" ∈ raw.cols →
      Lab7.transform raw = some out → colSource ∈ out.cols ∧ colTarget ∈ out.cols) ∧
    (∀ raw out, "article_content" ∈ raw.cols → "summary" ∈ raw.cols →
      Lab8.transform raw = some out → colSource ∈ out.cols ∧ colTarget ∈ out.cols) := by
  constructor
  · intro raw out hn ht h
    simp only [Lab7.transform] at h
    split at h
    case h_2 => simp at h
    case h_1 mapped heq =>
      rcases h with ⟨⟩
      have hcols : mapped.cols = (renameCols Lab7.renameMap raw).cols :=
        (mapColumn_cols heq).trans rfl
      have hsrc : colSource ∈ (renameCols Lab7.renameMap raw).cols := by
        have h1 : lookupRename Lab7.renameMap "neutral" = colSource := rfl
        have := List.mem_map_of_mem (lookupRename Lab7.renameMap) hn
        rw [h1] at this
        exact this
      have htgt : colTarget ∈ (renameCols Lab7.renameMap raw).cols := by
        have h1 : lookupRename Lab7.renameMap "toxic" = colTarget := rfl
        have := List.mem_map_of_mem (lookupRename Lab7.renameMap) ht
        rw [h1] at this
        exact this
      constructor
      · exact List.mem_cons_of_mem _ (hcols ▸ hsrc)
      · exact List.mem_cons_of_mem _ (hcols ▸ htgt)
  · intro raw out ha hs h
    simp only [Lab8.transform] at h
    split at h
    case h_2 => simp at h
    case h_1 dropped heq =>
      rcases h with ⟨⟩
      have hcols : dropped.cols = raw.cols.filter (fun c => !Lab8.droppedCols.contains c) :=
        dropColumns_cols heq
      have ha' : "article_content" ∈ dropped.cols := by
        rw [hcols]
        exact List.mem_filter.mpr ⟨ha, by decide⟩
      have hs' : "summary" ∈ dropped.cols := by
        rw [hcols]
        exact List.mem_filter.mpr ⟨hs, by decide⟩
      have hsrc : colSource ∈ (renameCols Lab8.renameMap dropped).cols := by
        have h1 : lookupRename Lab8.renameMap "article_content" = colSource := rfl
        have := List.mem_map_of_mem (lookupRename Lab8.renameMap) ha'
        rw [h1] at this
        exact this
      have htgt : colTarget ∈ (renameCols Lab8.renameMap dropped).cols := by
        have h1 : lookupRename Lab8.renameMap "summary" = colTarget := rfl
        have := List.mem_map_of_mem (lookupRename Lab8.renameMap) hs'
        rw [h1] at this
        exact this
      exact ⟨List.mem_cons_of_mem _ hsrc, List.mem_cons_of_mem _ htgt⟩

/-- Witness for C3 at concrete lab 7 and lab 8 raw tables. -/
theorem c3_columns_renamed_consistently_witness :
    (colSource ∈ cOut7.cols ∧ colTarget ∈ cOut7.cols) ∧
    (colSource ∈ cDupOut8.cols ∧ colTarget ∈ cDupOut8.cols) :=
  ⟨c3_columns_renamed_consistently.1 cRaw7 cOut7 (by decide) (by decide) rfl,
   c3_columns_renamed_consistently.2 cDup8 cDupOut8 (by decide) (by decide) rfl⟩

/-- C2 counterexample: the lab 8 `transform` drops no duplicate rows — on
a concrete raw table with two identical rows the output has two rows
while the (renamed) input has one distinct row, so the claim's row-count
equation fails. -/
theorem c2_counterexample_lab8_keeps_duplicates :
    ¬ (∀ raw out, Lab8.transform raw = some out →
        out.rows.length = (raw.rows.map Prod.snd).dedup.length) := by
  intro hall
  have h := hall cDup8 cDupOut8 rfl
  exact absurd h (by decide)

/-- C2 amended: only the lab 7 `transform` deduplicates — its output row
count equals the number of distinct cell rows of the renamed input (and
its rows, which carry the fresh range index, are pairwise distinct) —
while the lab 8 `transform` keeps one output row per input row. -/
theorem c2_duplicate_rows (raw out : DataFrame) :
    (Lab7.transform raw = some out →
      out.rows.length = ((renameCols Lab7.renameMap raw).rows.map Prod.snd).dedup.length ∧
      out.rows.Nodup) ∧
    (Lab8.transform raw = some out →
      out.rows.length = raw.rows.length ∧ out.rows.Nodup) := by
  constructor
  · intro h
    simp only [Lab7.transform] at h
    split at h
    case h_2 => simp at h
    case h_1 mapped heq =>
      rcases h with ⟨⟩
      refine ⟨?_, indexRows_nodup _ _⟩
      calc (resetIndex mapped).rows.length
          = mapped.rows.length := indexRows_length _ _
        _ = (dropDuplicates (renameCols Lab7.renameMap raw)).rows.length :=
            mapColumn_rows_length heq
        _ = ((renameCols Lab7.renameMap raw).rows.map Prod.snd).dedup.length :=
            dedupRowsGo_length _
  · intro h
    simp only [Lab8.transform] at h
    split at h
    case h_2 => simp at h
    case h_1 dropped heq =>
      rcases h with ⟨⟩
      refine ⟨?_, indexRows_nodup _ _⟩
      calc (resetIndex (renameCols Lab8.renameMap dropped)).rows.length
          = (renameCols Lab8.renameMap dropped).rows.length := indexRows_length _ _
        _ = dropped.rows.length := rfl
        _ = raw.rows.length := dropColumns_rows_length heq

/-- Witness for C2's amended statement at concrete lab 7 and lab 8
inputs (the lab 8 input holding duplicate rows). -/
theorem c2_duplicate_rows_witness :
    (cOut7.rows.length =
        ((renameCols Lab7.renameMap cRaw7).rows.map Prod.snd).dedup.length ∧
      cOut7.rows.Nodup) ∧
    (cDupOut8.rows.length = cDup8.rows.length ∧ cDupOut8.rows.Nodup) :=
  ⟨(c2_duplicate_rows cRaw7 cOut7).1 rfl, (c2_duplicate_rows cDup8 cDupOut8).2 rfl⟩

/-- C6: whatever the dataset, a successful `infer_dataset` returns a
frame with exactly the two columns `target` and `prediction`, in both
labs. -/
theorem c6_inference_frame_two_columns (p : Pipeline) (df : DataFrame) :
    (Lab7.inferDataset p = .ok df → df.cols = [colTarget, colPrediction]) ∧
    (Lab8.inferDataset p = .ok df → df.cols = [colTarget, colPrediction]) := by
  constructor
  · intro h
    simp only [Lab7.inferDataset] at h
    split at h
    · simp at h
    · split at h
      · simp at h
      · split at h
        · simp at h
        · simp only [mkPredFrame] at h
          split at h
          · rcases h with ⟨⟩; rfl
          · simp at h
  · intro h
    simp only [Lab8.inferDataset] at h
    split at h
    · simp at h
    · split at h
      · simp at h
      · split at h
        · simp at h
        · simp only [mkPredFrame] at h
          split at h
          · rcases h with ⟨⟩; rfl
          · simp at h

/-- Witness for C6 at the concrete pipeline. -/
theorem c6_inference_frame_two_columns_witness :
    cPredsDf.cols = [colTarget, colPrediction] :=
  (c6_inference_frame_two_columns cPipe cPredsDf).1 rfl

/-- When every row is long enough, editing a column rewrites exactly that
column's values through `f`. -/
theorem getCol_mapColumn_self {df df' : DataFrame} {c : String} {f : Value → Value}
    (hwf : ∀ r ∈ df.rows, df.cols.length ≤ r.2.length)
    (h : mapColumn df c f = some df') :
    getCol df' c = (getCol df c).map (List.map f) := by
  simp only [mapColumn] at h
  cases hci : colIndex df.cols c with
  | none => rw [hci] at h; simp at h
  | some i =>
    rw [hci] at h
    simp only [Option.map_some'] at h
    rcases h with ⟨⟩
    simp only [getCol, hci, Option.map_some', List.map_map]
    congr 1
    apply List.map_congr_left
    intro r hr
    have hlt : i < r.2.length := lt_of_lt_of_le (colIndex_lt_length hci) (hwf r hr)
    simpa using cellAt_mapCellAt_self f r.2 i hlt

/-- C9: after the lab 7 `transform`, the `target` column is the
deduplicated rows' original `toxic` values mapped through
`1 if x is True else 0`: every resulting value is the integer 0 or 1, and
it is 1 exactly when the original value was the boolean `True`. -/
theorem c9_target_labels_binary (raw out : DataFrame) (vals : List Value)
    (hwf : raw.Wf) (h : Lab7.transform raw = some out)
    (hv : getCol (dropDuplicates (renameCols Lab7.renameMap raw)) colTarget = some vals) :
    getCol out colTarget = some (vals.map Lab7.toxicToLabel) ∧
    (∀ x, Lab7.toxicToLabel x = Value.vInt 1 ↔ x = Value.vBool true) ∧
    (∀ v ∈ vals.map Lab7.toxicToLabel, v = Value.vInt 0 ∨ v = Value.vInt 1) := by
  simp only [Lab7.transform] at h
  split at h
  case h_2 => simp at h
  case h_1 mapped heq =>
    rcases h with ⟨⟩
    have hwf' : ∀ r ∈ (dropDuplicates (renameCols Lab7.renameMap raw)).rows,
        (dropDuplicates (renameCols Lab7.renameMap raw)).cols.length ≤ r.2.length := by
      intro r hr
      have hr' : r ∈ raw.rows := dedupRowsGo_subset _ _ _ hr
      have hlen := hwf r hr'
      have hcl : (dropDuplicates (renameCols Lab7.renameMap raw)).cols.length
          = raw.cols.length := by
        simp [dropDuplicates, renameCols]
      exact le_of_eq (hcl.trans hlen.symm)
    have hmc := getCol_mapColumn_self hwf' heq
    rw [hv] at hmc
    refine ⟨?_, ?_, ?_⟩
    · rw [getCol_resetIndex _ _ (by decide)]
      exact hmc
    · intro x
      constructor
      · intro hx
        by_contra hne
        simp [Lab7.toxicToLabel, hne] at hx
      · intro hx
        simp [Lab7.toxicToLabel, hx]
    · intro v hv'
      rcases List.mem_map.mp hv' with ⟨x, _, rfl⟩
      by_cases hx : x = Value.vBool true <;> simp [Lab7.toxicToLabel, hx]

/-- Witness for C9 at the concrete lab 7 raw table, whose deduplicated
`toxic` values are `False` and `True`. -/
theorem c9_target_labels_binary_witness :
    getCol cOut7 colTarget =
      some ([Value.vBool false, Value.vBool true].map Lab7.toxicToLabel) :=
  (c9_target_labels_binary cRaw7 cOut7 [Value.vBool false, Value.vBool true]
    (by unfold DataFrame.Wf; decide) rfl rfl).1

/-- C10: with a non-null model and a positive batch size, a successful
`infer_dataset` yields exactly one prediction per dataset row: the
prediction column is the concatenation of the per-batch prediction lists
in `DataLoader` batch order, that concatenation equals the model mapped
over the source samples in dataset order, the rows pair the predictions
positionally with the dataset's `target` column, and the lab 8 loop form
produces the same frame as the lab 7 comprehension form. -/
theorem c10_one_prediction_per_row (p : Pipeline) (m : Model) (df : DataFrame)
    (texts targets : List Value)
    (hm : p.model = some m) (hbs : 0 < p.batchSize)
    (hsrc : getCol p.dataset colSource = some texts)
    (htgt : getCol p.dataset colTarget = some targets)
    (h : Lab7.inferDataset p = .ok df) :
    getCol df colPrediction =
      some (((chunkList p.batchSize texts).map (List.map m.predict)).flatten.map Value.vStr) ∧
    ((chunkList p.batchSize texts).map (List.map m.predict)).flatten = texts.map m.predict ∧
    getCol df colTarget = some targets ∧
    df.rows.length = p.dataset.rows.length ∧
    texts.length = p.dataset.rows.length ∧
    Lab8.inferDataset p = .ok df := by
  have hflat : ((chunkList p.batchSize texts).map (List.map m.predict)).flatten
      = texts.map m.predict := by
    rw [← List.map_flatten, chunkList_flatten]
  have hlen_t : targets.length = p.dataset.rows.length := getCol_length _ _ _ htgt
  have hlen_s : texts.length = p.dataset.rows.length := getCol_length _ _ _ hsrc
  have hPlen : ((chunkList p.batchSize texts).map (List.map m.predict)).flatten.length
      = texts.length := by rw [hflat]; simp
  have hguard : targets.length
      = ((chunkList p.batchSize texts).map (List.map m.predict)).flatten.length := by
    rw [hPlen]; omega
  simp only [Lab7.inferDataset, hsrc, inferAll_ok p m hm, htgt] at h
  simp only [mkPredFrame] at h
  rw [if_pos hguard] at h
  rcases h with ⟨⟩
  have hidx1 : colIndex [colTarget, colPrediction] colPrediction = some 1 := by decide
  have hidx0 : colIndex [colTarget, colPrediction] colTarget = some 0 := by decide
  refine ⟨?_, hflat, ?_, ?_, hlen_s, ?_⟩
  · simp only [getCol, hidx1, Option.map_some']
    rw [mkPredRows_cellAt_one _ _ _ hguard]
  · simp only [getCol, hidx0, Option.map_some']
    rw [mkPredRows_cellAt_zero _ _ _ hguard]
  · simp only []
    rw [mkPredRows_length _ _ _ hguard]
    omega
  · simp only [Lab8.inferDataset, hsrc, inferLoop_ok p m hm, List.nil_append, htgt]
    simp only [mkPredFrame]
    rw [if_pos hguard]

/-- Witness for C10 at the concrete three-row pipeline with batch size 2. -/
theorem c10_one_prediction_per_row_witness :
    getCol cPredsDf colPrediction =
      some (((chunkList cPipe.batchSize [Value.vStr "a", Value.vStr "b", Value.vStr "c"]).map
        (List.map cModel.predict)).flatten.map Value.vStr) :=
  (c10_one_prediction_per_row cPipe cModel cPredsDf
    [Value.vStr "a", Value.vStr "b", Value.vStr "c"]
    [Value.vInt 0, Value.vInt 1, Value.vInt 0]
    rfl (by decide) rfl rfl rfl).1
